import Mathlib

/-!
# Telemetry decode-and-dispatch pipeline of `src/js/app.js`

A shallow embedding of `decodeGPS`, the dispatch table `updateFunc`, the poll
callback of `startDataSync` and the timer bookkeeping around `requestInterval`.

Modelling conventions.

* JavaScript numbers are exact: a number is `NaN`, an infinity, or a rational.
  Rounding, overflow to `Infinity` and the sign of zero are not represented.
* JavaScript strings are Lean strings, handled as lists of characters.
* `undefined` results are `none`. A call on the page or the map gives the
  display it leaves and the error it raised, if any.
* jQuery and Leaflet are outside the source; their calls are modelled as
  jQuery 3 and Leaflet 1 behave. `$(sel).text(v)` is the getter for
  `undefined` and otherwise assigns `v` to the text of the element, every
  selector of the source picking one element of the page. `setLatLng`, `panTo`
  and `circleMarker` convert the position with `new LatLng`, which raises on a
  coordinate that is `NaN`; the map centre is the position last panned to.
* A telemetry response is well formed as the interface of the API client
  gives it: each item holds a message with a string `appId` and a `data` of
  any type.
-/

namespace App

/-! ## Numbers -/

/-- A JavaScript number in exact arithmetic. -/
inductive JSNum where
  | nan : JSNum
  | inf (negative : Bool) : JSNum
  | fin (q : ℚ) : JSNum
  deriving DecidableEq, Repr

namespace JSNum

/-- Unary minus. -/
def neg : JSNum → JSNum
  | nan => nan
  | inf b => inf (!b)
  | fin q => fin (-q)

/-- Binary `+`. -/
def add : JSNum → JSNum → JSNum
  | nan, _ => nan
  | _, nan => nan
  | inf a, inf b => if a = b then inf a else nan
  | inf a, fin _ => inf a
  | fin _, inf b => inf b
  | fin p, fin q => fin (p + q)

/-- Binary `*`. -/
def mul : JSNum → JSNum → JSNum
  | nan, _ => nan
  | _, nan => nan
  | inf a, inf b => inf (xor a b)
  | inf a, fin q => if q = 0 then nan else inf (xor a (decide (q < 0)))
  | fin p, inf b => if p = 0 then nan else inf (xor (decide (p < 0)) b)
  | fin p, fin q => fin (p * q)

/-- Binary `/` (a zero divisor is taken as `+0`). -/
def div : JSNum → JSNum → JSNum
  | nan, _ => nan
  | _, nan => nan
  | inf _, inf _ => nan
  | inf a, fin q => inf (xor a (decide (q < 0)))
  | fin _, inf _ => fin 0
  | fin p, fin q =>
    if q = 0 then (if p = 0 then nan else inf (decide (p < 0))) else fin (p / q)

/-- Truncation toward zero of a rational. -/
def trunc (q : ℚ) : ℤ := if 0 ≤ q then ⌊q⌋ else ⌈q⌉

/-- Binary `%`: the remainder takes the sign of the dividend. -/
def mod : JSNum → JSNum → JSNum
  | nan, _ => nan
  | _, nan => nan
  | inf _, _ => nan
  | fin p, inf _ => fin p
  | fin p, fin q => if q = 0 then nan else fin (p - q * (trunc (p / q) : ℚ))

end JSNum

/-! ## Strings: `split(',')` and `Number(..)` -/

/-- Worker of `split`: `cur` is the field being read, reversed. -/
def splitAux (sep : Char) : List Char → List Char → List (List Char)
  | [], cur => [cur.reverse]
  | c :: cs, cur =>
    if c = sep then cur.reverse :: splitAux sep cs [] else splitAux sep cs (c :: cur)

/-- The call `data.split(',')`: the fields of `data` between commas. -/
def split (data : String) : List String :=
  (splitAux ',' data.data []).map String.mk

/-- The characters `StringToNumber` strips from both ends (white space and
line terminators). -/
def isStrWhiteSpaceChar (c : Char) : Bool :=
  let n := c.toNat
  n = 0x09 || n = 0x0A || n = 0x0B || n = 0x0C || n = 0x0D || n = 0x20 || n = 0xA0 ||
  n = 0x1680 || (0x2000 ≤ n && n ≤ 0x200A) || n = 0x2028 || n = 0x2029 ||
  n = 0x202F || n = 0x205F || n = 0x3000 || n = 0xFEFF

/-- Strip white space from both ends. -/
def trimWS (l : List Char) : List Char :=
  ((l.dropWhile isStrWhiteSpaceChar).reverse.dropWhile isStrWhiteSpaceChar).reverse

/-- Value of a digit in the given radix, if it is one. -/
def digitValue (radix : Nat) (c : Char) : Option Nat :=
  let n := c.toNat
  let v := if 48 ≤ n ∧ n ≤ 57 then n - 48
    else if 97 ≤ n ∧ n ≤ 102 then n - 87
    else if 65 ≤ n ∧ n ≤ 70 then n - 55
    else radix
  if v < radix then some v else none

/-- Value of a non-empty run of digits in the given radix; `none` when the run
is empty or holds another character. -/
def digitsValue (radix : Nat) : List Char → Option Nat
  | [] => none
  | c :: cs =>
    (c :: cs).foldl
      (fun acc d => match acc, digitValue radix d with
        | some a, some v => some (radix * a + v)
        | _, _ => none)
      (some 0)

/-- `ExponentPart`, optional: the empty rest is exponent 0. -/
def parseExponent : List Char → Option ℤ
  | [] => some 0
  | c :: rest =>
    if c = 'e' ∨ c = 'E' then
      match rest with
      | '+' :: ds => (digitsValue 10 ds).map Int.ofNat
      | '-' :: ds => (digitsValue 10 ds).map (fun n => - Int.ofNat n)
      | ds => (digitsValue 10 ds).map Int.ofNat
    else none

/-- A decimal literal read off a string: the digits before and after the
point, the number of digits after the point, and the exponent. -/
structure DecimalLit where
  intPart : Nat
  fracPart : Nat
  fracLen : Nat
  exp : ℤ
  deriving DecidableEq, Repr

/-- The mathematical value of a decimal literal. -/
def DecimalLit.value (d : DecimalLit) : ℚ :=
  ((d.intPart : ℚ) + (d.fracPart : ℚ) / (10 : ℚ) ^ d.fracLen) * (10 : ℚ) ^ d.exp

/-- `StrUnsignedDecimalLiteral` other than `Infinity`. -/
def parseUnsignedDecimal (l : List Char) : Option DecimalLit :=
  let ip := l.takeWhile (fun c => (digitValue 10 c).isSome)
  let r1 := l.dropWhile (fun c => (digitValue 10 c).isSome)
  match r1 with
  | '.' :: r2 =>
    let fp := r2.takeWhile (fun c => (digitValue 10 c).isSome)
    let r3 := r2.dropWhile (fun c => (digitValue 10 c).isSome)
    if ip = [] ∧ fp = [] then none
    else
      match parseExponent r3 with
      | none => none
      | some e =>
        some
          { intPart := (digitsValue 10 ip).getD 0
            fracPart := (digitsValue 10 fp).getD 0
            fracLen := fp.length
            exp := e }
  | r =>
    if ip = [] then none
    else
      match parseExponent r with
      | none => none
      | some e =>
        some { intPart := (digitsValue 10 ip).getD 0, fracPart := 0, fracLen := 0, exp := e }

/-- What a string reads as under the grammar of `StringToNumber`. -/
inductive NumericLit where
  /-- A signed decimal literal. -/
  | decimal (negative : Bool) (d : DecimalLit) : NumericLit
  /-- The literal `Infinity`, signed. -/
  | infinity (negative : Bool) : NumericLit
  /-- The empty string (value 0) or a `0x`, `0o`, `0b` integer literal. -/
  | integer (n : Nat) : NumericLit
  /-- Anything else. -/
  | invalid : NumericLit
  deriving DecidableEq, Repr

/-- `StrDecimalLiteral` once its sign is read. -/
def parseUnsigned (negative : Bool) (l : List Char) : NumericLit :=
  if l = "Infinity".data then NumericLit.infinity negative
  else match parseUnsignedDecimal l with
    | some d => NumericLit.decimal negative d
    | none => NumericLit.invalid

/-- `StringNumericLiteral`: the string with white space stripped is empty, a
non-decimal integer literal, or a signed decimal literal. -/
def parseNumeric (s : String) : NumericLit :=
  match trimWS s.data with
  | [] => NumericLit.integer 0
  | '0' :: 'x' :: ds | '0' :: 'X' :: ds =>
    match digitsValue 16 ds with | some n => NumericLit.integer n | none => NumericLit.invalid
  | '0' :: 'o' :: ds | '0' :: 'O' :: ds =>
    match digitsValue 8 ds with | some n => NumericLit.integer n | none => NumericLit.invalid
  | '0' :: 'b' :: ds | '0' :: 'B' :: ds =>
    match digitsValue 2 ds with | some n => NumericLit.integer n | none => NumericLit.invalid
  | '+' :: r => parseUnsigned false r
  | '-' :: r => parseUnsigned true r
  | r => parseUnsigned false r

/-- The number a literal denotes; an invalid one denotes `NaN`. -/
def NumericLit.value : NumericLit → JSNum
  | NumericLit.decimal negative d => JSNum.fin (if negative then - d.value else d.value)
  | NumericLit.infinity negative => JSNum.inf negative
  | NumericLit.integer n => JSNum.fin n
  | NumericLit.invalid => JSNum.nan

/-- `StringToNumber` on a string. -/
def stringToNumber (s : String) : JSNum := (parseNumeric s).value

/-- The call `Number(x)` where `x` is a destructured field of the split: a
string, or `undefined` (`none`) when the array is too short. -/
def Number : Option String → JSNum
  | none => JSNum.nan
  | some s => stringToNumber s

/-! ## Values and `decodeGPS` -/

/-- A JavaScript value as it can occur in a decoded telemetry message. The
fields of an object are its own properties, each key once. -/
inductive JSVal where
  | undefined : JSVal
  | null : JSVal
  | bool (b : Bool) : JSVal
  | num (n : JSNum) : JSVal
  | str (s : String) : JSVal
  | arr (items : List JSVal) : JSVal
  | obj (fields : List (String × JSVal)) : JSVal

/-- Errors a step can raise. -/
inductive JSError where
  /-- A `TypeError` of the language. -/
  | typeError : JSError
  /-- The rejection of the promise of `api.getMessages`. -/
  | rejected : JSError
  /-- The `Error` with text `Invalid LatLng object` that Leaflet raises. -/
  | invalidLatLng : JSError
  /-- The `Error` with text `Attempted to load an infinite number of tiles`
  that the tile layer of Leaflet raises. -/
  | infiniteTiles : JSError
  deriving DecidableEq, Repr

/-- The display a call leaves and the error it raised, if any. -/
abbrev Outcome (σ : Type) := σ × Option JSError

mutual
/-- Whether converting a decoded value to a string raises. An object converts
through `toString`, then `valueOf`: an own field `toString`, which cannot be a
function in decoded data, leaves only `Object.prototype.valueOf`, whose result
is no primitive. An array joins the conversions of its elements. -/
def JSVal.toStringRaises : JSVal → Bool
  | JSVal.arr items => anyToStringRaises items
  | JSVal.obj fields => (fields.lookup "toString").isSome
  | _ => false
/-- Whether converting some element of the list to a string raises. -/
def anyToStringRaises : List JSVal → Bool
  | [] => false
  | v :: vs => v.toStringRaises || anyToStringRaises vs
end

mutual
/-- The number read off the string form of a value, `Number(String(v))`. A
number survives the round trip; `undefined`, `null`, booleans and objects
have a string form that is no numeric literal. -/
def JSVal.stringNumber : JSVal → Except JSError JSNum
  | JSVal.undefined => Except.ok JSNum.nan
  | JSVal.null => Except.ok JSNum.nan
  | JSVal.bool _ => Except.ok JSNum.nan
  | JSVal.num n => Except.ok n
  | JSVal.str s => Except.ok (stringToNumber s)
  | JSVal.arr items => joinNumber items
  | JSVal.obj fields =>
    if (fields.lookup "toString").isSome then Except.error JSError.typeError
    else Except.ok JSNum.nan
/-- The number read off `items.join(',')`: the empty array gives the empty
string, one element gives its own string form (empty for `undefined` and
`null`), and two or more give a string with a comma in it. -/
def joinNumber : List JSVal → Except JSError JSNum
  | [] => Except.ok (JSNum.fin 0)
  | [JSVal.undefined] => Except.ok (JSNum.fin 0)
  | [JSVal.null] => Except.ok (JSNum.fin 0)
  | [v] => v.stringNumber
  | v :: w :: rest =>
    if anyToStringRaises (v :: w :: rest) then Except.error JSError.typeError
    else Except.ok JSNum.nan
end

/-- The conversion `ToNumber`, which `isNaN(v)` and `+v` apply. -/
def JSVal.toNumber : JSVal → Except JSError JSNum
  | JSVal.undefined => Except.ok JSNum.nan
  | JSVal.null => Except.ok (JSNum.fin 0)
  | JSVal.bool b => Except.ok (JSNum.fin (if b then 1 else 0))
  | v => v.stringNumber

/-- The object literals `{ lat: .., lon: .. }` built in `decodeGPS` and in the
position handlers, and the positions Leaflet keeps. -/
structure Position where
  lat : JSVal
  lon : JSVal

/-- The statement `v += -(v % 1) + (v % 1) / 60 * 100`. -/
def minutesToDegrees (v : JSNum) : JSNum :=
  v.add (((v.mod (JSNum.fin 1)).neg).add
    (((v.mod (JSNum.fin 1)).div (JSNum.fin 60)).mul (JSNum.fin 100)))

/-- The function `decodeGPS(data)` on a string; `none` is `undefined`. -/
def decodeGPS (data : String) : Option Position :=
  let parts := split data
  let type := parts[0]?
  let lat := parts[2]?
  let latHem := parts[3]?
  let lon := parts[4]?
  let lonHem := parts[5]?
  if type = some "$GPGGA" then
    let la := (Number lat).div (JSNum.fin 100)
    let lo := (Number lon).div (JSNum.fin 100)
    let la := minutesToDegrees la
    let lo := minutesToDegrees lo
    some
      { lat := JSVal.num (la.mul (if latHem = some "N" then JSNum.fin 1 else JSNum.fin (-1)))
        lon := JSVal.num (lo.mul (if lonHem = some "E" then JSNum.fin 1 else JSNum.fin (-1))) }
  else none

/-! ## Display state and the dispatch table -/

/-- What the page and the map show. -/
structure Display where
  /-- Per selector, such as `#temperature`, the value whose string form is the
  text of the element. -/
  text : String → JSVal
  /-- The position of `locationMarker`. -/
  marker : Position
  /-- The position `leafletMap` was last panned to. -/
  center : Position
  /-- The positions of the circle markers added so far, oldest first. -/
  trail : List Position

/-- Replace the text of one element. -/
def writeText (sel : String) (v : JSVal) (s : Display) : Display :=
  { s with text := Function.update s.text sel v }

/-- The call `$(sel).text(data)` of jQuery. With `undefined` it is the getter
and writes nothing. Otherwise it empties the element and assigns `data` to
`textContent`, which shows `null` as the empty string and any other value in
its string form; when that conversion raises, the element stays empty. -/
def setText (sel : String) (data : JSVal) (s : Display) : Outcome Display :=
  match data with
  | JSVal.undefined => (s, none)
  | JSVal.null => (writeText sel (JSVal.str "") s, none)
  | v =>
    if v.toStringRaises then (writeText sel (JSVal.str "") s, some JSError.typeError)
    else (writeText sel v s, none)

/-- The conversion Leaflet applies to `{ lat, lon }`, `new LatLng(lat, lon)`:
it raises when `isNaN(lat) || isNaN(lon)` and keeps `+lat` and `+lon`
otherwise. The text of the error is built from both coordinates, so a
longitude without a string form raises a `TypeError` there. -/
def toLatLng (pos : Position) : Except JSError Position :=
  match pos.lat.toNumber with
  | Except.error e => Except.error e
  | Except.ok JSNum.nan =>
    if pos.lon.toStringRaises then Except.error JSError.typeError
    else Except.error JSError.invalidLatLng
  | Except.ok la =>
    match pos.lon.toNumber with
    | Except.error e => Except.error e
    | Except.ok JSNum.nan => Except.error JSError.invalidLatLng
    | Except.ok lo => Except.ok { lat := JSVal.num la, lon := JSVal.num lo }

/-- Whether a value is an infinite number. -/
def JSVal.isInfinite : JSVal → Bool
  | JSVal.num (JSNum.inf _) => true
  | _ => false

/-- The three map calls shared by the position handlers:
`locationMarker.setLatLng(pos)` and
`leafletMap.panTo(pos).addLayer(L.circleMarker(pos, ..))`. The first call
converts `pos` and raises before anything is moved when Leaflet rejects it;
the other two convert the same `pos` again. On an infinite longitude the
marker is moved and the map centred, then the tile layer raises while the map
moves, before the circle marker is made. -/
def showPosition (pos : Position) (s : Display) : Outcome Display :=
  match toLatLng pos with
  | Except.error e => (s, some e)
  | Except.ok p =>
    if p.lon.isInfinite then ({ s with marker := p, center := p }, some JSError.infiniteTiles)
    else ({ s with marker := p, center := p, trail := s.trail ++ [p] }, none)

/-- The property read `data.key` for `key` one of `lat`, `lon`, `lng`, none of
which a built-in prototype defines: it raises on `undefined` and `null`, reads
an own field of an object and is `undefined` otherwise. -/
def getField (data : JSVal) (key : String) : Except JSError JSVal :=
  match data with
  | JSVal.undefined => Except.error JSError.typeError
  | JSVal.null => Except.error JSError.typeError
  | JSVal.obj fields => Except.ok ((fields.lookup key).getD JSVal.undefined)
  | _ => Except.ok JSVal.undefined

/-- A handler of the table: a function of the payload acting on the display. -/
abbrev Handler := JSVal → Display → Outcome Display

namespace updateFunc

/-- The handler `GROUND_FIX`. -/
def GROUND_FIX : Handler := fun data s =>
  match getField data "lat", getField data "lon" with
  | Except.ok la, Except.ok lo => showPosition { lat := la, lon := lo } s
  | Except.error e, _ => (s, some e)
  | _, Except.error e => (s, some e)

/-- The handler `GNSS`. -/
def GNSS : Handler := fun data s =>
  match getField data "lat", getField data "lng" with
  | Except.ok la, Except.ok lo => showPosition { lat := la, lon := lo } s
  | Except.error e, _ => (s, some e)
  | _, Except.error e => (s, some e)

/-- The handler `GPS`: `data.split` is callable only when `data` is a string. -/
def GPS : Handler := fun data s =>
  match data with
  | JSVal.str d =>
    match decodeGPS d with
    | none => (s, none)
    | some pos => showPosition pos s
  | _ => (s, some JSError.typeError)

/-- The handler `TEMP`. -/
def TEMP : Handler := fun data s => setText "#temperature" data s

/-- The handler `AIR_PRESS`. -/
def AIR_PRESS : Handler := fun data s => setText "#air_pressure" data s

/-- The handler `BATTERY`. -/
def BATTERY : Handler := fun data s => setText "#battery" data s

/-- The handler `AIR_QUAL`. -/
def AIR_QUAL : Handler := fun data s => setText "#air_quality" data s

/-- The handler `HUMID`. -/
def HUMID : Handler := fun data s => setText "#humidity" data s

/-- The handler `RSRP`. -/
def RSRP : Handler := fun data s => setText "#rsrp" data s

/-- The handler `FCM_FLOW_RATE1`. -/
def FCM_FLOW_RATE1 : Handler := fun data s => setText "#fcm1_rate" data s

/-- The handler `FCM_FLOW_RATE2`. -/
def FCM_FLOW_RATE2 : Handler := fun data s => setText "#fcm2_rate" data s

/-- The handler `FCM_LITTERS_MEAS1`. -/
def FCM_LITTERS_MEAS1 : Handler := fun data s => setText "#fcm1_litters" data s

/-- The handler `FCM_LITTERS_MEAS2`. -/
def FCM_LITTERS_MEAS2 : Handler := fun data s => setText "#fcm2_litters" data s

/-- The handler `FCM_CALIB1`. -/
def FCM_CALIB1 : Handler := fun data s => setText "#fcm1_calib" data s

/-- The handler `FCM_CALIB2`. -/
def FCM_CALIB2 : Handler := fun data s => setText "#fcm2_calib" data s

end updateFunc

/-- The object literal `updateFunc`: its own properties in source order. -/
def updateFunc : List (String × Handler) :=
  [ ("GROUND_FIX", updateFunc.GROUND_FIX),
    ("GNSS", updateFunc.GNSS),
    ("GPS", updateFunc.GPS),
    ("TEMP", updateFunc.TEMP),
    ("AIR_PRESS", updateFunc.AIR_PRESS),
    ("BATTERY", updateFunc.BATTERY),
    ("AIR_QUAL", updateFunc.AIR_QUAL),
    ("HUMID", updateFunc.HUMID),
    ("RSRP", updateFunc.RSRP),
    ("FCM_FLOW_RATE1", updateFunc.FCM_FLOW_RATE1),
    ("FCM_FLOW_RATE2", updateFunc.FCM_FLOW_RATE2),
    ("FCM_LITTERS_MEAS1", updateFunc.FCM_LITTERS_MEAS1),
    ("FCM_LITTERS_MEAS2", updateFunc.FCM_LITTERS_MEAS2),
    ("FCM_CALIB1", updateFunc.FCM_CALIB1),
    ("FCM_CALIB2", updateFunc.FCM_CALIB2) ]

/-- What a property inherited from `Object.prototype` is when it is read off
`updateFunc` and called with the payload as its one argument. -/
inductive Inherited where
  /-- A function that returns whatever the argument is. -/
  | plain : Inherited
  /-- A function that first converts the argument to a property key. -/
  | keyed : Inherited
  /-- A function that raises a `TypeError` because its second argument, left
  out, is not callable. -/
  | accessor : Inherited
  /-- An object that is not callable. -/
  | object : Inherited
  deriving DecidableEq, Repr

/-- The properties every object literal inherits from `Object.prototype`. -/
def objectPrototype : List (String × Inherited) :=
  [ ("constructor", Inherited.plain),
    ("hasOwnProperty", Inherited.keyed),
    ("isPrototypeOf", Inherited.plain),
    ("propertyIsEnumerable", Inherited.keyed),
    ("toLocaleString", Inherited.plain),
    ("toString", Inherited.plain),
    ("valueOf", Inherited.plain),
    ("__proto__", Inherited.object),
    ("__defineGetter__", Inherited.accessor),
    ("__defineSetter__", Inherited.accessor),
    ("__lookupGetter__", Inherited.keyed),
    ("__lookupSetter__", Inherited.keyed) ]

/-- The callback of `forEach` in the poll callback: read `updateFunc[appId]`,
return when the result is falsy, call it with `data` otherwise. The read finds
an own property first and a property of `Object.prototype` next; none of the
inherited functions touches the page or the map. -/
def dispatch (appId : String) (data : JSVal) (s : Display) : Outcome Display :=
  match updateFunc.lookup appId with
  | some handler => handler data s
  | none =>
    match objectPrototype.lookup appId with
    | none => (s, none)
    | some Inherited.plain => (s, none)
    | some Inherited.keyed =>
      if data.toStringRaises then (s, some JSError.typeError) else (s, none)
    | some Inherited.accessor => (s, some JSError.typeError)
    | some Inherited.object => (s, some JSError.typeError)

/-! ## The poll callback -/

/-- An element of `items`, after `.map(({ message }) => message)`. -/
structure Message where
  appId : String
  data : JSVal

/-- Outcome of `await api.getMessages(..)`: the promise rejects, or resolves to
an object whose `items` is a list or is missing. -/
inductive Fetch where
  | rejected : Fetch
  | resolved (items : Option (List Message)) : Fetch

/-- The loop `.forEach(..)`: it stops at the first message whose dispatch
raises, with the display as that dispatch left it. -/
def forEachDispatch : List Message → Display → Outcome Display
  | [], s => (s, none)
  | m :: ms, s =>
    match dispatch m.appId m.data s with
    | (s1, none) => forEachDispatch ms s1
    | (s1, some e) => (s1, some e)

/-- One run of the interval callback of `startDataSync`. -/
def tick (fetch : Fetch) (s : Display) : Outcome Display :=
  match fetch with
  | Fetch.rejected => (s, some JSError.rejected)
  | Fetch.resolved items => forEachDispatch (items.getD []) s

/-! ## Timers -/

/-- The live interval timers and the variable `requestInterval`. -/
structure Session where
  /-- Handles of the interval timers that are running. -/
  active : List Nat
  /-- The variable `requestInterval`; `none` is `undefined`. -/
  requestInterval : Option Nat
  /-- Number of times `$('#trackBtn').click()` ran. -/
  trackClicks : Nat
  deriving DecidableEq, Repr

/-- The state before `startDataSync` ever ran. -/
def Session.initial : Session :=
  { active := [], requestInterval := none, trackClicks := 0 }

/-- The call `clearInterval(h)`: it stops the timer with that handle, and does
nothing for `undefined`. -/
def clearInterval (h : Option Nat) (active : List Nat) : List Nat :=
  match h with
  | none => active
  | some k => active.filter (fun a => a ≠ k)

/-- The function `startDataSync()`, where `handle` is what `setInterval`
returns for the timer it starts. -/
def startDataSync (handle : Nat) (t : Session) : Session :=
  let active := clearInterval t.requestInterval t.active
  { active := active ++ [handle]
    requestInterval := some handle
    trackClicks := t.trackClicks + 1 }

/-! ## Reference definitions used in the statements -/

/-- The floor-based reading of a `DDMM.MMMM` value `x` that the specification
gives: whole degrees `floor (x / 100)` plus the remaining fraction of `x / 100`
scaled by `100 / 60`. -/
def specDegrees (x : ℚ) : ℚ := (⌊x / 100⌋ : ℚ) + (x / 100 - ⌊x / 100⌋) * 100 / 60

/-- The display when the script has loaded: marker and map centre as lines 4
and 17 of the source set them, no trail. The texts of the page elements come
from the page, which the source does not hold; they start empty here. -/
def Display.initial : Display :=
  { text := fun _ => JSVal.str ""
    marker := { lat := JSVal.num (JSNum.fin 48.1547929), lon := JSVal.num (JSNum.fin 11.5594241) }
    center := { lat := JSVal.num (JSNum.fin 20), lon := JSVal.num (JSNum.fin 30) }
    trail := [] }

/-- The scalar identifiers and the selector of the label each one writes. -/
def scalarLabels : List (String × String) :=
  [ ("TEMP", "#temperature"),
    ("AIR_PRESS", "#air_pressure"),
    ("BATTERY", "#battery"),
    ("AIR_QUAL", "#air_quality"),
    ("HUMID", "#humidity"),
    ("RSRP", "#rsrp"),
    ("FCM_FLOW_RATE1", "#fcm1_rate"),
    ("FCM_FLOW_RATE2", "#fcm2_rate"),
    ("FCM_LITTERS_MEAS1", "#fcm1_litters"),
    ("FCM_LITTERS_MEAS2", "#fcm2_litters"),
    ("FCM_CALIB1", "#fcm1_calib"),
    ("FCM_CALIB2", "#fcm2_calib") ]

/-- A position handler: whenever it returns, it has left the display alone or
has moved marker and centre to one position and appended it to the trail. -/
def IsPositionHandler (h : Handler) : Prop :=
  ∀ data s s1, h data s = (s1, none) → s1 = s ∨ ∃ pos, showPosition pos s = (s1, none)

/-- A scalar label handler: it passes its payload to the text of one fixed
label. -/
def IsLabelHandler (h : Handler) : Prop :=
  ∃ sel, ∀ data s, h data s = setText sel data s

/-- Whether a value is the given string. -/
def JSVal.isStr (t : String) : JSVal → Bool
  | JSVal.str u => u == t
  | _ => false

/-- Whether a value is a number. -/
def JSVal.isNum : JSVal → Bool
  | JSVal.num _ => true
  | _ => false

/-- What a handler is seen to do on two payloads, run from the initial
display: which labels read `"x"` after the payload `"x"`, and, for the payload
`{ lat: 0, lon: 0 }`, whether the handler returns and whether it raises a
`TypeError`. Two handlers seen to differ are different. -/
def observe (h : Handler) : List Bool :=
  scalarLabels.map (fun p => ((h (JSVal.str "x") Display.initial).1.text p.2).isStr "x") ++
  [ ((h (JSVal.obj [("lat", JSVal.num (JSNum.fin 0)), ("lon", JSVal.num (JSNum.fin 0))])
        Display.initial).2 == none),
    ((h (JSVal.obj [("lat", JSVal.num (JSNum.fin 0)), ("lon", JSVal.num (JSNum.fin 0))])
        Display.initial).2 == some JSError.typeError) ]

/-- Dispatch of one message as the specification words it: an identifier of
the table runs its handler, a failure inside the handler is swallowed and the
update skipped, and any other identifier is skipped. -/
def specDispatch (m : Message) (s : Display) : Display :=
  match updateFunc.lookup m.appId with
  | some handler =>
    match handler m.data s with
    | (s1, none) => s1
    | (_, some _) => s
  | none => s

/-- One tick as the specification words it: the left fold of `specDispatch`
over the items in the order returned, and no change when the fetch fails or
holds no items. -/
def specTick (fetch : Fetch) (s : Display) : Display :=
  match fetch with
  | Fetch.rejected => s
  | Fetch.resolved items => (items.getD []).foldl (fun st m => specDispatch m st) s

/-! # Theorems -/

/-! ## Decimal degrees -/

/-- The floor-based reading of a non-negative value is non-negative. -/
theorem specDegrees_nonneg (x : ℚ) (h : 0 ≤ x) : 0 ≤ specDegrees x := by
  have h1 : (0 : ℚ) ≤ x / 100 := by positivity
  have h2 : (0 : ℚ) ≤ (⌊x / 100⌋ : ℚ) := by exact_mod_cast Int.floor_nonneg.mpr h1
  have h3 : (0 : ℚ) ≤ x / 100 - ⌊x / 100⌋ := by
    have := Int.floor_le (x / 100)
    linarith
  unfold specDegrees
  positivity

/-- On a non-negative rational the modulo statement of `decodeGPS` is the
integer part plus the fractional part scaled by `100 / 60`. -/
theorem minutesToDegrees_fin (q : ℚ) (h : 0 ≤ q) :
    minutesToDegrees (JSNum.fin q) = JSNum.fin ((⌊q⌋ : ℚ) + (q - ⌊q⌋) * 100 / 60) := by
  simp only [minutesToDegrees, JSNum.mod, JSNum.trunc, JSNum.neg, JSNum.div, JSNum.mul,
    JSNum.add]
  norm_num [h]
  unfold Int.fract
  ring

/-- The modulo statement of `decodeGPS` keeps `NaN`. -/
theorem minutesToDegrees_nan : minutesToDegrees JSNum.nan = JSNum.nan := rfl

/-- Dividing a rational by 100. -/
theorem div_hundred (x : ℚ) : (JSNum.fin x).div (JSNum.fin 100) = JSNum.fin (x / 100) := by
  simp [JSNum.div]

/-- Value of `decodeGPS` on a tagged sentence with six fields or more whose
coordinate fields read as non-negative numbers. -/
theorem decodeGPS_fix (data f1 latF latHem lonF lonHem : String) (rest : List String)
    (x y : ℚ)
    (hsplit : split data = "$GPGGA" :: f1 :: latF :: latHem :: lonF :: lonHem :: rest)
    (hlat : Number (some latF) = JSNum.fin x) (hx : 0 ≤ x)
    (hlon : Number (some lonF) = JSNum.fin y) (hy : 0 ≤ y) :
    decodeGPS data = some
      { lat := JSVal.num (JSNum.fin (specDegrees x * (if latHem = "N" then 1 else -1)))
        lon := JSVal.num (JSNum.fin (specDegrees y * (if lonHem = "E" then 1 else -1))) } := by
  have hx1 : (0 : ℚ) ≤ x / 100 := by positivity
  have hy1 : (0 : ℚ) ≤ y / 100 := by positivity
  simp only [decodeGPS, hsplit, List.getElem?_cons_zero, List.getElem?_cons_succ, hlat, hlon,
    div_hundred, minutesToDegrees_fin _ hx1, minutesToDegrees_fin _ hy1, if_true]
  by_cases h1 : latHem = "N" <;> by_cases h2 : lonHem = "E" <;>
    simp [h1, h2, JSNum.mul, specDegrees]

/-- The sentence of the specification's example splits into six fields. -/
theorem split_example :
    split "$GPGGA,,4809.19,N,11739.00,E" = ["$GPGGA", "", "4809.19", "N", "11739.00", "E"] := by
  decide

/-- The latitude field of the example reads as 4809.19. -/
theorem Number_example_lat : Number (some "4809.19") = JSNum.fin (480919 / 100) := by
  have h : parseNumeric "4809.19" = NumericLit.decimal false ⟨4809, 19, 2, 0⟩ := by decide
  simp only [Number, stringToNumber, h, NumericLit.value, DecimalLit.value]
  norm_num

/-- The longitude field of the example reads as 11739. -/
theorem Number_example_lon : Number (some "11739.00") = JSNum.fin 11739 := by
  have h : parseNumeric "11739.00" = NumericLit.decimal false ⟨11739, 0, 2, 0⟩ := by decide
  simp only [Number, stringToNumber, h, NumericLit.value, DecimalLit.value]
  norm_num

/-- C1. For a `$GPGGA` sentence whose latitude and longitude fields read as
non-negative numbers `x` and `y`, `decodeGPS` returns a Position whose absolute
latitude is `floor (x/100) + (x/100 - floor (x/100)) * 100/60` and whose
absolute longitude is the same expression in `y`: the modulo statement of the
code is the floor-based decomposition. The sign is `+` exactly for hemisphere
`N` (latitude) and `E` (longitude). -/
theorem decodeGPS_floor_decomposition (data f1 latF latHem lonF lonHem : String)
    (rest : List String) (x y : ℚ)
    (hsplit : split data = "$GPGGA" :: f1 :: latF :: latHem :: lonF :: lonHem :: rest)
    (hlat : Number (some latF) = JSNum.fin x) (hx : 0 ≤ x)
    (hlon : Number (some lonF) = JSNum.fin y) (hy : 0 ≤ y) :
    ∃ la lo : ℚ,
      decodeGPS data = some { lat := JSVal.num (JSNum.fin la), lon := JSVal.num (JSNum.fin lo) } ∧
      |la| = (⌊x / 100⌋ : ℚ) + (x / 100 - ⌊x / 100⌋) * 100 / 60 ∧
      |lo| = (⌊y / 100⌋ : ℚ) + (y / 100 - ⌊y / 100⌋) * 100 / 60 ∧
      la = (if latHem = "N" then 1 else -1) * |la| ∧
      lo = (if lonHem = "E" then 1 else -1) * |lo| := by
  refine ⟨_, _, decodeGPS_fix data f1 latF latHem lonF lonHem rest x y hsplit hlat hx hlon hy,
    ?_, ?_, ?_, ?_⟩
  · have := specDegrees_nonneg x hx
    by_cases h : latHem = "N" <;> simp [h, abs_of_nonneg this] <;> rfl
  · have := specDegrees_nonneg y hy
    by_cases h : lonHem = "E" <;> simp [h, abs_of_nonneg this] <;> rfl
  · have := specDegrees_nonneg x hx
    by_cases h : latHem = "N" <;> simp [h, abs_of_nonneg this]
  · have := specDegrees_nonneg y hy
    by_cases h : lonHem = "E" <;> simp [h, abs_of_nonneg this]

/-- C1, on the example of the specification: the sentence
`$GPGGA,,4809.19,N,11739.00,E` decodes to latitude `48 + 9.19/60` and longitude
`117 + 39/60 = 117.65`. -/
theorem decodeGPS_floor_decomposition_witness :
    decodeGPS "$GPGGA,,4809.19,N,11739.00,E" = some
      { lat := JSVal.num (JSNum.fin (48 + (919 / 100) / 60))
        lon := JSVal.num (JSNum.fin (11765 / 100)) } := by
  obtain ⟨la, lo, h, h1, h2, h3, h4⟩ :=
    decodeGPS_floor_decomposition "$GPGGA,,4809.19,N,11739.00,E" "" "4809.19" "N" "11739.00" "E"
      [] (480919 / 100) 11739 split_example Number_example_lat (by norm_num)
      Number_example_lon (by norm_num)
  have f1 : ⌊(480919 / 100 : ℚ) / 100⌋ = 48 := by
    rw [Int.floor_eq_iff]; constructor <;> norm_num
  have f2 : ⌊(11739 : ℚ) / 100⌋ = 117 := by
    rw [Int.floor_eq_iff]; constructor <;> norm_num
  rw [f1] at h1
  rw [f2] at h2
  rw [h1] at h3
  rw [h2] at h4
  rw [h, h3, h4]
  norm_num


/-- A `DDMM.MMMM` value with whole degrees `d` and minutes `m` below 60 reads,
floor-based, as `d + m / 60`. -/
theorem specDegrees_minutes (d : ℕ) (m : ℚ) (h0 : 0 ≤ m) (h60 : m < 60) :
    specDegrees (100 * d + m) = d + m / 60 := by
  have hf : ⌊(100 * (d : ℚ) + m) / 100⌋ = (d : ℤ) := by
    rw [Int.floor_eq_iff]
    constructor
    · push_cast
      linarith
    · push_cast
      linarith
  unfold specDegrees
  rw [hf]
  push_cast
  ring

/-- C2. A valid `$GPGGA` fix sentence (latitude `DDMM.MMMM` with minutes in
`[0, 60)` and at most 90 degrees, longitude `DDDMM.MMMM` with minutes in
`[0, 60)` and at most 180 degrees, hemispheres `N`/`S` and `E`/`W`) decodes to
a Position with latitude in `[-90, 90]` and longitude in `[-180, 180]`, of
absolute values `d + m/60` and `e + n/60`, non-negative for `N` and `E`,
non-positive for `S` and `W`. -/
theorem decodeGPS_valid_fix_range (data f1 latF latHem lonF lonHem : String)
    (rest : List String) (d e : ℕ) (m n : ℚ)
    (hsplit : split data = "$GPGGA" :: f1 :: latF :: latHem :: lonF :: lonHem :: rest)
    (hlat : Number (some latF) = JSNum.fin (100 * d + m))
    (hm0 : 0 ≤ m) (hm60 : m < 60) (hd : (d : ℚ) + m / 60 ≤ 90)
    (hlon : Number (some lonF) = JSNum.fin (100 * e + n))
    (hn0 : 0 ≤ n) (hn60 : n < 60) (he : (e : ℚ) + n / 60 ≤ 180)
    (hlatHem : latHem = "N" ∨ latHem = "S") (hlonHem : lonHem = "E" ∨ lonHem = "W") :
    ∃ la lo : ℚ,
      decodeGPS data = some { lat := JSVal.num (JSNum.fin la), lon := JSVal.num (JSNum.fin lo) } ∧
      (-90 ≤ la ∧ la ≤ 90) ∧ (-180 ≤ lo ∧ lo ≤ 180) ∧
      |la| = d + m / 60 ∧ |lo| = e + n / 60 ∧
      (latHem = "N" → 0 ≤ la) ∧ (latHem = "S" → la ≤ 0) ∧
      (lonHem = "E" → 0 ≤ lo) ∧ (lonHem = "W" → lo ≤ 0) := by
  have hd0 : (0 : ℚ) ≤ d := Nat.cast_nonneg d
  have he0 : (0 : ℚ) ≤ e := Nat.cast_nonneg e
  have hx : (0 : ℚ) ≤ 100 * d + m := by positivity
  have hy : (0 : ℚ) ≤ 100 * e + n := by positivity
  have hA : (0 : ℚ) ≤ d + m / 60 := by positivity
  have hB : (0 : ℚ) ≤ e + n / 60 := by positivity
  have hNS : ("S" : String) ≠ "N" := by decide
  have hEW : ("W" : String) ≠ "E" := by decide
  refine ⟨_, _, decodeGPS_fix data f1 latF latHem lonF lonHem rest _ _ hsplit hlat hx hlon hy,
    ?_⟩
  rw [specDegrees_minutes d m hm0 hm60, specDegrees_minutes e n hn0 hn60]
  rcases hlatHem with h1 | h1 <;> rcases hlonHem with h2 | h2 <;> subst h1 <;> subst h2 <;>
    simp only [if_true, if_neg hNS, if_neg hEW, mul_one, mul_neg, abs_neg, abs_of_nonneg hA,
      abs_of_nonneg hB] <;>
    refine ⟨⟨by linarith, by linarith⟩, ⟨by linarith, by linarith⟩, trivial, trivial,
      ?_, ?_, ?_, ?_⟩ <;>
    intro h <;> first | linarith | exact absurd h (by decide)

/-- C2 on the sentence `$GPGGA,,4809.19,N,11739.00,E`: 48 degrees 9.19 minutes
north, 117 degrees 39 minutes east. -/
theorem decodeGPS_valid_fix_range_witness :
    ∃ la lo : ℚ,
      decodeGPS "$GPGGA,,4809.19,N,11739.00,E" =
        some { lat := JSVal.num (JSNum.fin la), lon := JSVal.num (JSNum.fin lo) } ∧
      (-90 ≤ la ∧ la ≤ 90) ∧ (-180 ≤ lo ∧ lo ≤ 180) ∧
      |la| = (48 : ℕ) + (919 / 100 : ℚ) / 60 ∧ |lo| = (117 : ℕ) + (39 : ℚ) / 60 ∧
      (("N" : String) = "N" → 0 ≤ la) ∧ (("N" : String) = "S" → la ≤ 0) ∧
      (("E" : String) = "E" → 0 ≤ lo) ∧ (("E" : String) = "W" → lo ≤ 0) :=
  decodeGPS_valid_fix_range "$GPGGA,,4809.19,N,11739.00,E" "" "4809.19" "N" "11739.00" "E" []
    48 117 (919 / 100) 39 split_example
    (by rw [Number_example_lat]; norm_num) (by norm_num) (by norm_num) (by norm_num)
    (by rw [Number_example_lon]; norm_num) (by norm_num) (by norm_num) (by norm_num)
    (Or.inl rfl) (Or.inl rfl)

/-! ## Sentences `decodeGPS` does not validate -/

/-- The split of a string is never empty: its first field is the text before
the first comma. -/
theorem splitAux_head (sep : Char) (l cur : List Char) :
    (splitAux sep l cur)[0]? = some (cur.reverse ++ l.takeWhile (fun c => c ≠ sep)) := by
  induction l generalizing cur with
  | nil => simp [splitAux]
  | cons c cs ih =>
    by_cases h : c = sep
    · simp [splitAux, h]
    · simp [splitAux, h, ih]

/-- The first field of `data.split(',')` is the text before the first comma. -/
theorem split_head (data : String) :
    (split data)[0]? = some (String.mk (data.data.takeWhile (fun c => c ≠ ','))) := by
  simp [split, List.getElem?_map, splitAux_head]

/-- C4. When the first comma-separated field of the input is not exactly
`$GPGGA`, `decodeGPS` returns `undefined`, whatever the other fields hold. The
function is total on strings, so nothing is raised. -/
theorem decodeGPS_other_tag (data : String) (h : (split data)[0]? ≠ some "$GPGGA") :
    decodeGPS data = none := by
  simp [decodeGPS, h]

/-- C4 on the empty string, whose only field is empty. -/
theorem decodeGPS_other_tag_witness :
    (split "")[0]? ≠ some "$GPGGA" ∧ decodeGPS "" = none :=
  ⟨by decide, decodeGPS_other_tag "" (by decide)⟩

/-- A sentence without a comma is its own first field, and is rejected unless
it is the bare tag. -/
theorem decodeGPS_no_comma (data : String) (h : ',' ∉ data.data) (ht : data ≠ "$GPGGA") :
    decodeGPS data = none := by
  have hself : data.data.takeWhile (fun c => c ≠ ',') = data.data := by
    rw [List.takeWhile_eq_self_iff]
    intro c hc
    have hne : c ≠ ',' := fun hcc => h (hcc ▸ hc)
    simpa using hne
  have hhead : (split data)[0]? = some data := by
    rw [split_head, hself]
  simp [decodeGPS, hhead, ht]

/-- Leaflet rejects a position whose latitude is `NaN`. -/
theorem showPosition_nan_lat (lo : JSNum) (s : Display) :
    showPosition { lat := JSVal.num JSNum.nan, lon := JSVal.num lo } s =
      (s, some JSError.invalidLatLng) := rfl

/-- Leaflet rejects a position whose longitude is `NaN`. -/
theorem showPosition_nan_lon (la : JSNum) (s : Display) :
    showPosition { lat := JSVal.num la, lon := JSVal.num JSNum.nan } s =
      (s, some JSError.invalidLatLng) := by
  cases la <;> rfl

/-- Leaflet accepts a position with two rational coordinates, and marker,
centre and trail take it. -/
theorem showPosition_fin (la lo : ℚ) (s : Display) :
    showPosition { lat := JSVal.num (JSNum.fin la), lon := JSVal.num (JSNum.fin lo) } s =
      ({ s with
          marker := { lat := JSVal.num (JSNum.fin la), lon := JSVal.num (JSNum.fin lo) }
          center := { lat := JSVal.num (JSNum.fin la), lon := JSVal.num (JSNum.fin lo) }
          trail := s.trail ++
            [{ lat := JSVal.num (JSNum.fin la), lon := JSVal.num (JSNum.fin lo) }] },
        none) := rfl

/-- The empty field reads as the number 0. -/
theorem Number_empty : Number (some "") = JSNum.fin 0 := by
  have h : parseNumeric "" = NumericLit.integer 0 := by decide
  simp [Number, stringToNumber, h, NumericLit.value]

/-- A tagged sentence whose coordinate fields are empty decodes to `(0, 0)`. -/
theorem decodeGPS_empty_fields :
    decodeGPS "$GPGGA,,,N,,E" =
      some { lat := JSVal.num (JSNum.fin 0), lon := JSVal.num (JSNum.fin 0) } := by
  have hs : split "$GPGGA,,,N,,E" = ["$GPGGA", "", "", "N", "", "E"] := by decide
  rw [decodeGPS_fix "$GPGGA,,,N,,E" "" "" "N" "" "E" [] 0 0 hs Number_empty (le_refl 0)
    Number_empty (le_refl 0)]
  simp [specDegrees]

/-- C3, refuted: the bare tag `$GPGGA` has one field only, and a sentence of
six fields can hold coordinate fields that are no numbers, yet `decodeGPS`
returns a Position in both cases, with both coordinates `NaN`; the `GPS`
handler does not return early but raises in `setLatLng`. A sentence whose
coordinate fields are empty decodes to `(0, 0)`, and the handler moves the
marker there. -/
theorem decodeGPS_malformed_counterexample :
    (split "$GPGGA").length < 6 ∧ (split "$GPGGA")[0]? = some "$GPGGA" ∧
    decodeGPS "$GPGGA" =
      some { lat := JSVal.num JSNum.nan, lon := JSVal.num JSNum.nan } ∧
    decodeGPS "$GPGGA" ≠ none ∧
    (∀ s : Display,
      dispatch "GPS" (JSVal.str "$GPGGA") s = (s, some JSError.invalidLatLng)) ∧
    Number (some "abc") = JSNum.nan ∧ Number (some "xyz") = JSNum.nan ∧
    decodeGPS "$GPGGA,,abc,N,xyz,E" =
      some { lat := JSVal.num JSNum.nan, lon := JSVal.num JSNum.nan } ∧
    decodeGPS "$GPGGA,,,N,,E" =
      some { lat := JSVal.num (JSNum.fin 0), lon := JSVal.num (JSNum.fin 0) } ∧
    (dispatch "GPS" (JSVal.str "$GPGGA,,,N,,E") Display.initial).1.marker =
      { lat := JSVal.num (JSNum.fin 0), lon := JSVal.num (JSNum.fin 0) } := by
  have h : decodeGPS "$GPGGA" =
      some { lat := JSVal.num JSNum.nan, lon := JSVal.num JSNum.nan } := by rfl
  refine ⟨by decide, by decide, h, by rw [h]; exact Option.some_ne_none _, ?_, by decide,
    by decide, by rfl, decodeGPS_empty_fields, ?_⟩
  · intro s
    show updateFunc.GPS (JSVal.str "$GPGGA") s = _
    simp only [updateFunc.GPS, h]
    rfl
  · show (updateFunc.GPS (JSVal.str "$GPGGA,,,N,,E") Display.initial).1.marker = _
    simp only [updateFunc.GPS, decodeGPS_empty_fields, showPosition_fin]

/-- C3, amended. On every string tagged `$GPGGA`, well formed or not,
`decodeGPS` returns a Position and never `undefined`; a latitude field that is
missing or that `Number` reads as `NaN` makes the latitude `NaN`, and likewise
the longitude; with either coordinate `NaN` the `GPS` handler does not return
early: it calls `setLatLng`, which raises, and the display is left as it
was. -/
theorem decodeGPS_tagged_returns_position (data : String)
    (h : (split data)[0]? = some "$GPGGA") :
    ∃ la lo : JSNum,
      decodeGPS data = some { lat := JSVal.num la, lon := JSVal.num lo } ∧
      (Number (split data)[2]? = JSNum.nan → la = JSNum.nan) ∧
      (Number (split data)[4]? = JSNum.nan → lo = JSNum.nan) ∧
      ((split data).length ≤ 2 → la = JSNum.nan) ∧
      ((split data).length ≤ 4 → lo = JSNum.nan) ∧
      (la = JSNum.nan ∨ lo = JSNum.nan →
        ∀ s : Display, dispatch "GPS" (JSVal.str data) s = (s, some JSError.invalidLatLng)) := by
  have hd : decodeGPS data = some
      { lat := JSVal.num ((minutesToDegrees ((Number (split data)[2]?).div (JSNum.fin 100))).mul
          (if (split data)[3]? = some "N" then JSNum.fin 1 else JSNum.fin (-1)))
        lon := JSVal.num ((minutesToDegrees ((Number (split data)[4]?).div (JSNum.fin 100))).mul
          (if (split data)[5]? = some "E" then JSNum.fin 1 else JSNum.fin (-1))) } := by
    simp [decodeGPS, h]
  have hlat : Number (split data)[2]? = JSNum.nan →
      (minutesToDegrees ((Number (split data)[2]?).div (JSNum.fin 100))).mul
        (if (split data)[3]? = some "N" then JSNum.fin 1 else JSNum.fin (-1)) = JSNum.nan := by
    intro hn
    rw [hn]
    split <;> rfl
  have hlon : Number (split data)[4]? = JSNum.nan →
      (minutesToDegrees ((Number (split data)[4]?).div (JSNum.fin 100))).mul
        (if (split data)[5]? = some "E" then JSNum.fin 1 else JSNum.fin (-1)) = JSNum.nan := by
    intro hn
    rw [hn]
    split <;> rfl
  refine ⟨_, _, hd, hlat, hlon, ?_, ?_, ?_⟩
  · intro hlen
    apply hlat
    rw [List.getElem?_eq_none (by omega)]
    rfl
  · intro hlen
    apply hlon
    rw [List.getElem?_eq_none (by omega)]
    rfl
  · intro hnan s
    show updateFunc.GPS (JSVal.str data) s = _
    simp only [updateFunc.GPS, hd]
    rcases hnan with hn | hn
    · rw [hn]
      exact showPosition_nan_lat _ s
    · rw [hn]
      exact showPosition_nan_lon _ s

/-- C3, amended, on the bare tag: both fields are missing, both coordinates
are `NaN` and the handler raises. -/
theorem decodeGPS_tagged_returns_position_witness :
    decodeGPS "$GPGGA" = some { lat := JSVal.num JSNum.nan, lon := JSVal.num JSNum.nan } ∧
    ∀ s : Display, dispatch "GPS" (JSVal.str "$GPGGA") s = (s, some JSError.invalidLatLng) := by
  obtain ⟨la, lo, hd, _, _, h2, h4, hr⟩ :=
    decodeGPS_tagged_returns_position "$GPGGA" (by decide)
  have hla : la = JSNum.nan := h2 (by decide)
  have hlo : lo = JSNum.nan := h4 (by decide)
  subst hla
  subst hlo
  exact ⟨hd, hr (Or.inl rfl)⟩

/-! ## The dispatch table -/

/-- A key is looked up successfully exactly when it is among the keys. -/
theorem lookup_isSome_iff {β : Type} (l : List (String × β)) (k : String) :
    (l.lookup k).isSome = true ↔ k ∈ l.map Prod.fst := by
  induction l with
  | nil => simp
  | cons p ps ih =>
    obtain ⟨a, b⟩ := p
    by_cases h : k = a
    · subst h
      simp [List.lookup]
    · have h2 : (k == a) = false := by simpa using h
      simp [List.lookup, h2, ih, h]

/-- A key outside the list is looked up as nothing. -/
theorem lookup_eq_none_of_not_mem {β : Type} (l : List (String × β)) (k : String)
    (h : k ∉ l.map Prod.fst) : l.lookup k = none := by
  cases hl : l.lookup k with
  | none => rfl
  | some b => exact absurd ((lookup_isSome_iff l k).mp (by rw [hl]; rfl)) h

/-- The keys of `updateFunc`, in source order. -/
theorem updateFunc_keys :
    updateFunc.map Prod.fst =
      ["GROUND_FIX", "GNSS", "GPS", "TEMP", "AIR_PRESS", "BATTERY", "AIR_QUAL", "HUMID",
        "RSRP", "FCM_FLOW_RATE1", "FCM_FLOW_RATE2", "FCM_LITTERS_MEAS1", "FCM_LITTERS_MEAS2",
        "FCM_CALIB1", "FCM_CALIB2"] := rfl

/-- No key of `updateFunc` occurs twice. -/
theorem updateFunc_keys_nodup : (updateFunc.map Prod.fst).Nodup := by
  rw [updateFunc_keys]
  decide

/-- The handlers of `updateFunc` are seen to differ pairwise. -/
theorem updateFunc_observe_nodup : (updateFunc.map (fun p => observe p.2)).Nodup := by
  decide

/-- The handlers of `updateFunc` are pairwise different functions. -/
theorem updateFunc_handlers_nodup : (updateFunc.map Prod.snd).Nodup := by
  have h : ((updateFunc.map Prod.snd).map observe).Nodup := by
    rw [List.map_map]
    exact updateFunc_observe_nodup
  exact List.Nodup.of_map observe h

/-- An identifier that is neither a key of the table nor a property name of
`Object.prototype` is dispatched as nothing. -/
theorem dispatch_unknown (appId : String) (h1 : appId ∉ updateFunc.map Prod.fst)
    (h2 : appId ∉ objectPrototype.map Prod.fst) (data : JSVal) (s : Display) :
    dispatch appId data s = (s, none) := by
  simp [dispatch, lookup_eq_none_of_not_mem _ _ h1, lookup_eq_none_of_not_mem _ _ h2]

/-- Dispatch of a key of the table runs the handler stored under it. -/
theorem dispatch_of_lookup (appId : String) (handler : Handler)
    (h : updateFunc.lookup appId = some handler) (data : JSVal) (s : Display) :
    dispatch appId data s = handler data s := by
  simp [dispatch, h]

/-- The three position entries are position handlers. -/
theorem position_entries : ∀ p ∈ updateFunc.take 3, IsPositionHandler p.2 := by
  intro p hp
  simp only [updateFunc, List.take_succ_cons, List.take_zero, List.mem_cons, List.mem_nil_iff,
    or_false] at hp
  rcases hp with rfl | rfl | rfl
  · intro data s s1 h
    right
    simp only [updateFunc.GROUND_FIX] at h
    split at h
    · exact ⟨_, h⟩
    · cases h
    · cases h
  · intro data s s1 h
    right
    simp only [updateFunc.GNSS] at h
    split at h
    · exact ⟨_, h⟩
    · cases h
    · cases h
  · intro data s s1 h
    simp only [updateFunc.GPS] at h
    split at h
    · split at h
      · left
        exact (congrArg Prod.fst h).symm
      · right
        exact ⟨_, h⟩
    · cases h

/-- The twelve remaining entries are scalar label handlers. -/
theorem label_entries : ∀ p ∈ updateFunc.drop 3, IsLabelHandler p.2 := by
  intro p hp
  simp only [updateFunc, List.drop_succ_cons, List.drop_zero, List.mem_cons, List.mem_nil_iff,
    or_false] at hp
  rcases hp with rfl | rfl | rfl | rfl | rfl | rfl | rfl | rfl | rfl | rfl | rfl | rfl <;>
    exact ⟨_, fun _ _ => rfl⟩

/-- C5, refuted: the table has fifteen keys, all different, so no list of
fourteen identifiers holds exactly the identifiers it defines; and twelve of
the keys, not eleven, follow the three position keys. -/
theorem updateFunc_fourteen_counterexample :
    (updateFunc.map Prod.fst).length = 15 ∧ (updateFunc.drop 3).length = 12 ∧
    ¬ ∃ l : List String, l.length = 14 ∧
      ∀ appId, (updateFunc.lookup appId).isSome = true ↔ appId ∈ l := by
  refine ⟨rfl, rfl, ?_⟩
  rintro ⟨l, hlen, hl⟩
  have hsub : updateFunc.map Prod.fst ⊆ l := by
    intro k hk
    exact (hl k).mp ((lookup_isSome_iff updateFunc k).mpr hk)
  have hle := (List.Nodup.subperm updateFunc_keys_nodup hsub).length_le
  have h15 : (updateFunc.map Prod.fst).length = 15 := rfl
  omega

/-- C5, amended. The table `updateFunc` defines exactly fifteen identifiers,
all different: the three position handlers `GROUND_FIX`, `GNSS`, `GPS` and
twelve scalar label handlers; the fifteen handlers are pairwise different; an
identifier is looked up in the table exactly when it is one of the fifteen;
and every identifier that is neither one of them nor a property name inherited
from `Object.prototype` is unrecognized: dispatching it changes nothing and
raises nothing. -/
theorem updateFunc_fifteen_keys :
    updateFunc.map Prod.fst =
      ["GROUND_FIX", "GNSS", "GPS", "TEMP", "AIR_PRESS", "BATTERY", "AIR_QUAL", "HUMID",
        "RSRP", "FCM_FLOW_RATE1", "FCM_FLOW_RATE2", "FCM_LITTERS_MEAS1", "FCM_LITTERS_MEAS2",
        "FCM_CALIB1", "FCM_CALIB2"] ∧
    (updateFunc.map Prod.fst).length = 15 ∧ (updateFunc.map Prod.fst).Nodup ∧
    (updateFunc.take 3).length = 3 ∧ (∀ p ∈ updateFunc.take 3, IsPositionHandler p.2) ∧
    (updateFunc.drop 3).length = 12 ∧ (∀ p ∈ updateFunc.drop 3, IsLabelHandler p.2) ∧
    (updateFunc.map Prod.snd).Nodup ∧
    (∀ appId, (updateFunc.lookup appId).isSome = true ↔ appId ∈ updateFunc.map Prod.fst) ∧
    ∀ appId, appId ∉ updateFunc.map Prod.fst → appId ∉ objectPrototype.map Prod.fst →
      ∀ data s, dispatch appId data s = (s, none) :=
  ⟨rfl, rfl, updateFunc_keys_nodup, rfl, position_entries, rfl, label_entries,
    updateFunc_handlers_nodup, lookup_isSome_iff updateFunc,
    fun appId h1 h2 data s => dispatch_unknown appId h1 h2 data s⟩

/-- C5, amended, on the identifier `BUTTON`, which the table does not define. -/
theorem updateFunc_fifteen_keys_witness :
    dispatch "BUTTON" (JSVal.str "1") Display.initial = (Display.initial, none) :=
  updateFunc_fifteen_keys.2.2.2.2.2.2.2.2.2 "BUTTON" (by decide) (by decide) _ _

/-! ## Scalar labels -/

/-- Each scalar identifier is stored in the table with a handler that passes
the payload to the text of its label. -/
theorem scalar_dispatch (appId sel : String) (h : (appId, sel) ∈ scalarLabels)
    (data : JSVal) (s : Display) : dispatch appId data s = setText sel data s := by
  simp only [scalarLabels, List.mem_cons, List.mem_nil_iff, or_false, Prod.mk.injEq] at h
  rcases h with h | h | h | h | h | h | h | h | h | h | h | h <;> obtain ⟨rfl, rfl⟩ := h <;> rfl

/-- What `setText` leaves: the display itself, or the display with the one
text replaced. -/
theorem setText_display (sel : String) (data : JSVal) (s : Display) :
    (setText sel data s).1 = s ∨ ∃ v, (setText sel data s).1 = writeText sel v s := by
  unfold setText
  split
  · exact Or.inl rfl
  · exact Or.inr ⟨_, rfl⟩
  · split
    · exact Or.inr ⟨_, rfl⟩
    · exact Or.inr ⟨_, rfl⟩

/-- A payload that is neither `undefined` nor `null` and has a string form is
written as it is. -/
theorem setText_value (sel : String) (v : JSVal) (s : Display) (h1 : v ≠ JSVal.undefined)
    (h2 : v ≠ JSVal.null) (h3 : v.toStringRaises = false) :
    setText sel v s = (writeText sel v s, none) := by
  unfold setText
  split
  · exact absurd rfl h1
  · exact absurd rfl h2
  · simp [h3]

/-- A payload without a string form empties the label and raises. -/
theorem setText_raises (sel : String) (v : JSVal) (s : Display) (h : v.toStringRaises = true) :
    setText sel v s = (writeText sel (JSVal.str "") s, some JSError.typeError) := by
  unfold setText
  split
  · cases h
  · cases h
  · simp [h]

/-- C6, refuted: dispatching `TEMP` with `undefined` calls the getter form of
`.text` and leaves the temperature label at `"21.5"`; dispatching it with
`null` leaves the label empty, not `null`. -/
theorem scalar_label_counterexample :
    dispatch "TEMP" JSVal.undefined
        (writeText "#temperature" (JSVal.str "21.5") Display.initial) =
      (writeText "#temperature" (JSVal.str "21.5") Display.initial, none) ∧
    (dispatch "TEMP" JSVal.undefined
        (writeText "#temperature" (JSVal.str "21.5") Display.initial)).1.text "#temperature" =
      JSVal.str "21.5" ∧
    (dispatch "TEMP" JSVal.undefined
        (writeText "#temperature" (JSVal.str "21.5") Display.initial)).1.text "#temperature" ≠
      JSVal.undefined ∧
    (dispatch "TEMP" JSVal.null
        (writeText "#temperature" (JSVal.str "21.5") Display.initial)).1.text "#temperature" =
      JSVal.str "" ∧
    (dispatch "TEMP" JSVal.null
        (writeText "#temperature" (JSVal.str "21.5") Display.initial)).1.text "#temperature" ≠
      JSVal.null := by
  have h1 : (dispatch "TEMP" JSVal.undefined
      (writeText "#temperature" (JSVal.str "21.5") Display.initial)).1.text "#temperature" =
      JSVal.str "21.5" := rfl
  have h2 : (dispatch "TEMP" JSVal.null
      (writeText "#temperature" (JSVal.str "21.5") Display.initial)).1.text "#temperature" =
      JSVal.str "" := rfl
  refine ⟨rfl, h1, ?_, h2, ?_⟩
  · rw [h1]
    exact JSVal.noConfusion
  · rw [h2]
    exact JSVal.noConfusion

/-- C6, amended. Dispatching a scalar-label identifier (`TEMP`, `AIR_PRESS`,
`BATTERY`, `AIR_QUAL`, `HUMID`, `RSRP`, `FCM_FLOW_RATE1`, `FCM_FLOW_RATE2`,
`FCM_LITTERS_MEAS1`, `FCM_LITTERS_MEAS2`, `FCM_CALIB1`, `FCM_CALIB2`) with a
payload `v` that is neither `undefined` nor `null` and has a string form sets
the label of that identifier to `v` as it is, a string in particular, and
raises nothing; with `undefined` it changes nothing; with `null` it empties
the label; with a payload that has no string form it empties the label and
raises a `TypeError`. In every case every other label, the marker, the map
centre and the trail are unchanged; another scalar identifier writes to
another label; and these twelve are the scalar entries of the table. -/
theorem scalar_label_frame (appId sel : String) (h : (appId, sel) ∈ scalarLabels)
    (v : JSVal) (s : Display) :
    (v ≠ JSVal.undefined → v ≠ JSVal.null → v.toStringRaises = false →
      dispatch appId v s = (writeText sel v s, none) ∧
      (dispatch appId v s).1.text sel = v) ∧
    (∀ t : String, dispatch appId (JSVal.str t) s = (writeText sel (JSVal.str t) s, none) ∧
      (dispatch appId (JSVal.str t) s).1.text sel = JSVal.str t) ∧
    dispatch appId JSVal.undefined s = (s, none) ∧
    dispatch appId JSVal.null s = (writeText sel (JSVal.str "") s, none) ∧
    (v.toStringRaises = true →
      dispatch appId v s = (writeText sel (JSVal.str "") s, some JSError.typeError)) ∧
    ((∀ other, other ≠ sel → (dispatch appId v s).1.text other = s.text other) ∧
      (dispatch appId v s).1.marker = s.marker ∧ (dispatch appId v s).1.center = s.center ∧
      (dispatch appId v s).1.trail = s.trail) ∧
    (∀ appId2 sel2, (appId2, sel2) ∈ scalarLabels → appId2 ≠ appId → sel2 ≠ sel) ∧
    scalarLabels.map Prod.fst =
      ["TEMP", "AIR_PRESS", "BATTERY", "AIR_QUAL", "HUMID", "RSRP", "FCM_FLOW_RATE1",
        "FCM_FLOW_RATE2", "FCM_LITTERS_MEAS1", "FCM_LITTERS_MEAS2", "FCM_CALIB1",
        "FCM_CALIB2"] ∧
    (updateFunc.drop 3).map Prod.fst = scalarLabels.map Prod.fst := by
  have hw : ∀ w : JSVal, (writeText sel w s).text sel = w := by
    intro w
    simp [writeText]
  refine ⟨?_, ?_, ?_, ?_, ?_, ?_, ?_, rfl, rfl⟩
  · intro h1 h2 h3
    have := setText_value sel v s h1 h2 h3
    rw [scalar_dispatch appId sel h, this]
    exact ⟨rfl, hw v⟩
  · intro t
    have := setText_value sel (JSVal.str t) s JSVal.noConfusion JSVal.noConfusion rfl
    rw [scalar_dispatch appId sel h, this]
    exact ⟨rfl, hw _⟩
  · rw [scalar_dispatch appId sel h]
    rfl
  · rw [scalar_dispatch appId sel h]
    rfl
  · intro h3
    rw [scalar_dispatch appId sel h]
    exact setText_raises sel v s h3
  · rw [scalar_dispatch appId sel h]
    rcases setText_display sel v s with hs | ⟨w, hs⟩
    · rw [hs]
      exact ⟨fun _ _ => rfl, rfl, rfl, rfl⟩
    · rw [hs]
      refine ⟨?_, rfl, rfl, rfl⟩
      intro other ho
      simp [writeText, Function.update, ho]
  · intro appId2 sel2 h2 hne hsel
    subst hsel
    have hnd : (scalarLabels.map Prod.snd).Nodup := by decide
    have hinj := List.inj_on_of_nodup_map hnd h2 h
    exact hne (by simpa using congrArg Prod.fst (hinj rfl))

/-- C6, amended, on the example of the specification: `TEMP` with `"21.5"`
sets the temperature label to `"21.5"` and nothing else. -/
theorem scalar_label_frame_witness :
    dispatch "TEMP" (JSVal.str "21.5") Display.initial =
      (writeText "#temperature" (JSVal.str "21.5") Display.initial, none) ∧
    (dispatch "TEMP" (JSVal.str "21.5") Display.initial).1.text "#temperature" =
      JSVal.str "21.5" ∧
    (∀ other, other ≠ "#temperature" →
      (dispatch "TEMP" (JSVal.str "21.5") Display.initial).1.text other =
        Display.initial.text other) ∧
    (dispatch "TEMP" (JSVal.str "21.5") Display.initial).1.marker = Display.initial.marker ∧
    (dispatch "TEMP" (JSVal.str "21.5") Display.initial).1.center = Display.initial.center ∧
    (dispatch "TEMP" (JSVal.str "21.5") Display.initial).1.trail = Display.initial.trail :=
  have hall := scalar_label_frame "TEMP" "#temperature" (by decide) (JSVal.str "21.5")
    Display.initial
  ⟨(hall.1 JSVal.noConfusion JSVal.noConfusion rfl).1,
    (hall.1 JSVal.noConfusion JSVal.noConfusion rfl).2, hall.2.2.2.2.2.1.1,
    hall.2.2.2.2.2.1.2.1, hall.2.2.2.2.2.1.2.2.1, hall.2.2.2.2.2.1.2.2.2⟩

/-! ## Identifiers that are not keys -/

/-- C7, at the failing input. The identifier `__proto__` is not a key of
`updateFunc`, yet reading `updateFunc["__proto__"]` gives `Object.prototype`,
which is truthy and not callable: the dispatch step gets past the guard and
raises a `TypeError`, whatever the payload and the display. -/
theorem dispatch_proto_raises :
    "__proto__" ∉ updateFunc.map Prod.fst ∧
    ∀ (data : JSVal) (s : Display),
      dispatch "__proto__" data s = (s, some JSError.typeError) :=
  ⟨by decide, fun _ _ => rfl⟩

/-! ## Position handlers -/

/-- C8. From any display and for any coordinate pair `(lat, lon)`, dispatching
`GROUND_FIX` with `{lat, lon}`, `GNSS` with `{lat, lng: lon}` and `GPS` with a
sentence that `decodeGPS` decodes to `(lat, lon)` end in the same display and
raise nothing: marker and map centre at `(lat, lon)`, the trail with that one
point appended (one longer), all labels as before. -/
theorem position_handlers_agree (s : Display) (lat lon : ℚ) (sentence : String)
    (h : decodeGPS sentence =
      some { lat := JSVal.num (JSNum.fin lat), lon := JSVal.num (JSNum.fin lon) }) :
    ∃ s1 : Display,
      dispatch "GROUND_FIX"
        (JSVal.obj [("lat", JSVal.num (JSNum.fin lat)), ("lon", JSVal.num (JSNum.fin lon))]) s =
          (s1, none) ∧
      dispatch "GNSS"
        (JSVal.obj [("lat", JSVal.num (JSNum.fin lat)), ("lng", JSVal.num (JSNum.fin lon))]) s =
          (s1, none) ∧
      dispatch "GPS" (JSVal.str sentence) s = (s1, none) ∧
      s1.marker = { lat := JSVal.num (JSNum.fin lat), lon := JSVal.num (JSNum.fin lon) } ∧
      s1.center = { lat := JSVal.num (JSNum.fin lat), lon := JSVal.num (JSNum.fin lon) } ∧
      s1.trail = s.trail ++
        [{ lat := JSVal.num (JSNum.fin lat), lon := JSVal.num (JSNum.fin lon) }] ∧
      s1.trail.length = s.trail.length + 1 ∧
      s1.text = s.text := by
  refine ⟨_, showPosition_fin lat lon s, showPosition_fin lat lon s, ?_, rfl, rfl, rfl, ?_,
    rfl⟩
  · rw [dispatch_of_lookup "GPS" updateFunc.GPS rfl]
    simp only [updateFunc.GPS, h]
    exact showPosition_fin lat lon s
  · simp

/-- C8 on the sentence `$GPGGA,,4809.19,N,11739.00,E` and the pair it decodes
to, from the initial display. -/
theorem position_handlers_agree_witness :
    ∃ s1 : Display,
      dispatch "GROUND_FIX"
        (JSVal.obj [("lat", JSVal.num (JSNum.fin (288919 / 6000))),
          ("lon", JSVal.num (JSNum.fin (11765 / 100)))]) Display.initial = (s1, none) ∧
      dispatch "GNSS"
        (JSVal.obj [("lat", JSVal.num (JSNum.fin (288919 / 6000))),
          ("lng", JSVal.num (JSNum.fin (11765 / 100)))]) Display.initial = (s1, none) ∧
      dispatch "GPS" (JSVal.str "$GPGGA,,4809.19,N,11739.00,E") Display.initial =
        (s1, none) ∧
      s1.marker = { lat := JSVal.num (JSNum.fin (288919 / 6000)),
                    lon := JSVal.num (JSNum.fin (11765 / 100)) } ∧
      s1.center = { lat := JSVal.num (JSNum.fin (288919 / 6000)),
                    lon := JSVal.num (JSNum.fin (11765 / 100)) } ∧
      s1.trail = Display.initial.trail ++
        [{ lat := JSVal.num (JSNum.fin (288919 / 6000)),
           lon := JSVal.num (JSNum.fin (11765 / 100)) }] ∧
      s1.trail.length = Display.initial.trail.length + 1 ∧
      s1.text = Display.initial.text :=
  position_handlers_agree Display.initial (288919 / 6000) (11765 / 100)
    "$GPGGA,,4809.19,N,11739.00,E"
    (by
      rw [decodeGPS_fix "$GPGGA,,4809.19,N,11739.00,E" "" "4809.19" "N" "11739.00" "E" []
        (480919 / 100) 11739 split_example Number_example_lat (by norm_num)
        Number_example_lon (by norm_num)]
      have f1 : ⌊(480919 / 100 : ℚ) / 100⌋ = 48 := by
        rw [Int.floor_eq_iff]; constructor <;> norm_num
      have f2 : ⌊(11739 : ℚ) / 100⌋ = 117 := by
        rw [Int.floor_eq_iff]; constructor <;> norm_num
      simp only [specDegrees, f1, f2]
      norm_num)

/-! ## What Leaflet and the inherited properties do with other payloads -/

/-- The conversion to a number of the values a coordinate can be: `null` and
the empty array are 0, `true` is 1, a one-element array is its element,
`undefined`, a longer array and an object are `NaN`, and an object with an own
field `toString` cannot be converted. -/
theorem toNumber_examples :
    JSVal.null.toNumber = Except.ok (JSNum.fin 0) ∧
    (JSVal.bool true).toNumber = Except.ok (JSNum.fin 1) ∧
    (JSVal.arr []).toNumber = Except.ok (JSNum.fin 0) ∧
    (JSVal.arr [JSVal.num (JSNum.fin 5)]).toNumber = Except.ok (JSNum.fin 5) ∧
    (JSVal.arr [JSVal.null]).toNumber = Except.ok (JSNum.fin 0) ∧
    JSVal.undefined.toNumber = Except.ok JSNum.nan ∧
    (JSVal.arr [JSVal.num (JSNum.fin 1), JSVal.num (JSNum.fin 2)]).toNumber =
      Except.ok JSNum.nan ∧
    (JSVal.obj [("lat", JSVal.num (JSNum.fin 1))]).toNumber = Except.ok JSNum.nan ∧
    (JSVal.str "abc").toNumber = Except.ok JSNum.nan ∧
    (JSVal.str "Infinity").toNumber = Except.ok (JSNum.inf false) ∧
    (JSVal.obj [("toString", JSVal.null)]).toNumber = Except.error JSError.typeError :=
  ⟨rfl, by simp [JSVal.toNumber], rfl, rfl, rfl, rfl, rfl, rfl, rfl, rfl, rfl⟩

/-- The handler `GROUND_FIX` raises a `TypeError` on a payload without
properties, and Leaflet rejects the position when a coordinate is missing. -/
theorem GROUND_FIX_rejected (s : Display) :
    dispatch "GROUND_FIX" JSVal.null s = (s, some JSError.typeError) ∧
    dispatch "GROUND_FIX" JSVal.undefined s = (s, some JSError.typeError) ∧
    dispatch "GROUND_FIX" (JSVal.str "fix") s = (s, some JSError.invalidLatLng) ∧
    dispatch "GROUND_FIX" (JSVal.obj [("lat", JSVal.num (JSNum.fin 1))]) s =
      (s, some JSError.invalidLatLng) ∧
    dispatch "GROUND_FIX"
        (JSVal.obj [("lat", JSVal.num (JSNum.fin 1)), ("lng", JSVal.num (JSNum.fin 2))]) s =
      (s, some JSError.invalidLatLng) ∧
    dispatch "GNSS"
        (JSVal.obj [("lat", JSVal.num (JSNum.fin 1)), ("lon", JSVal.num (JSNum.fin 2))]) s =
      (s, some JSError.invalidLatLng) ∧
    dispatch "GROUND_FIX"
        (JSVal.obj [("lat", JSVal.undefined), ("lon", JSVal.obj [("toString", JSVal.null)])])
        s = (s, some JSError.typeError) :=
  ⟨rfl, rfl, rfl, rfl, rfl, rfl, rfl⟩

/-- Leaflet accepts `null` coordinates as 0, and stops at an infinite longitude
after the marker and the centre have moved. -/
theorem GROUND_FIX_converted (s : Display) :
    dispatch "GROUND_FIX" (JSVal.obj [("lat", JSVal.null), ("lon", JSVal.null)]) s =
      ({ s with
          marker := { lat := JSVal.num (JSNum.fin 0), lon := JSVal.num (JSNum.fin 0) }
          center := { lat := JSVal.num (JSNum.fin 0), lon := JSVal.num (JSNum.fin 0) }
          trail := s.trail ++
            [{ lat := JSVal.num (JSNum.fin 0), lon := JSVal.num (JSNum.fin 0) }] }, none) ∧
    dispatch "GROUND_FIX"
        (JSVal.obj [("lat", JSVal.num (JSNum.fin 1)), ("lon", JSVal.num (JSNum.inf false))]) s =
      ({ s with
          marker := { lat := JSVal.num (JSNum.fin 1), lon := JSVal.num (JSNum.inf false) }
          center := { lat := JSVal.num (JSNum.fin 1), lon := JSVal.num (JSNum.inf false) } },
        some JSError.infiniteTiles) :=
  ⟨rfl, rfl⟩

/-- The names inherited from `Object.prototype`: the functions that return,
the ones that raise on a payload without a string form, and the ones that
always raise. -/
theorem dispatch_inherited (data : JSVal) (s : Display) :
    dispatch "constructor" data s = (s, none) ∧
    dispatch "toString" data s = (s, none) ∧
    dispatch "valueOf" data s = (s, none) ∧
    dispatch "isPrototypeOf" data s = (s, none) ∧
    dispatch "toLocaleString" data s = (s, none) ∧
    dispatch "hasOwnProperty" (JSVal.str "TEMP") s = (s, none) ∧
    dispatch "hasOwnProperty" (JSVal.obj [("toString", JSVal.null)]) s =
      (s, some JSError.typeError) ∧
    dispatch "__defineGetter__" data s = (s, some JSError.typeError) ∧
    dispatch "__defineSetter__" data s = (s, some JSError.typeError) :=
  ⟨rfl, rfl, rfl, rfl, rfl, rfl, rfl, rfl, rfl⟩

/-! ## The poll callback -/

/-- A rejected fetch leaves the display as it was. -/
theorem tick_rejected (s : Display) : (tick Fetch.rejected s).1 = s := rfl

/-- A result without `items` leaves the display as it was, and nothing is
raised. -/
theorem tick_missing_items (s : Display) : tick (Fetch.resolved none) s = (s, none) := rfl

/-- An empty item list leaves the display as it was, and nothing is raised. -/
theorem tick_empty_items (s : Display) : tick (Fetch.resolved (some [])) s = (s, none) := rfl

/-- A value found by `lookup` is paired with its key in the list. -/
theorem mem_of_lookup {β : Type} (l : List (String × β)) (k : String) (v : β)
    (h : l.lookup k = some v) : (k, v) ∈ l := by
  induction l with
  | nil => cases h
  | cons p ps ih =>
    obtain ⟨a, b⟩ := p
    by_cases hk : k = a
    · subst hk
      simp only [List.lookup, beq_self_eq_true] at h
      cases h
      exact List.mem_cons_self _ _
    · have h2 : (k == a) = false := by simpa using hk
      simp only [List.lookup, h2] at h
      exact List.mem_cons_of_mem _ (ih h)

/-- When a position handler raises in the map calls, nothing has been moved,
or the marker and the centre have and the trail has not. -/
theorem showPosition_raise (pos : Position) (s : Display) (e : JSError)
    (h : (showPosition pos s).2 = some e) :
    (showPosition pos s).1 = s ∨
      ∃ p, (showPosition pos s).1 = { s with marker := p, center := p } := by
  unfold showPosition at h ⊢
  split at h
  · exact Or.inl rfl
  · split at h
    · rename_i hinf
      simp only [hinf, if_true]
      exact Or.inr ⟨_, rfl⟩
    · cases h

/-- When `.text` raises, the label has been emptied. -/
theorem setText_raise (sel : String) (data : JSVal) (s : Display) (e : JSError)
    (h : (setText sel data s).2 = some e) :
    (setText sel data s).1 = writeText sel (JSVal.str "") s := by
  unfold setText at h ⊢
  split at h
  · cases h
  · cases h
  · split at h
    · rename_i hr
      simp [hr]
    · cases h

/-- A dispatch that raises leaves the display as it was, except that a scalar
handler has emptied its label and that a position handler stopped by the tile
layer has moved marker and centre. -/
theorem dispatch_raise_display (appId : String) (data : JSVal) (s : Display) (e : JSError)
    (h : (dispatch appId data s).2 = some e) :
    (dispatch appId data s).1 = s ∨
      (∃ sel, (appId, sel) ∈ scalarLabels ∧
        (dispatch appId data s).1 = writeText sel (JSVal.str "") s) ∨
      ∃ p, (dispatch appId data s).1 = { s with marker := p, center := p } := by
  cases hl : updateFunc.lookup appId with
  | none =>
    left
    unfold dispatch
    rw [hl]
    dsimp only
    split
    · rfl
    · rfl
    · split <;> rfl
    · rfl
    · rfl
  | some handler =>
    have hd := dispatch_of_lookup appId handler hl data s
    rw [hd] at h ⊢
    have hmem := mem_of_lookup updateFunc appId handler hl
    simp only [updateFunc, List.mem_cons, List.mem_nil_iff, or_false, Prod.mk.injEq] at hmem
    rcases hmem with hm | hm | hm | hm | hm | hm | hm | hm | hm | hm | hm | hm | hm | hm | hm <;>
      obtain ⟨rfl, rfl⟩ := hm
    · simp only [updateFunc.GROUND_FIX] at h ⊢
      split
      · rename_i h1 h2
        simp only [h1, h2] at h
        rcases showPosition_raise _ s e h with hs | hs
        · exact Or.inl hs
        · exact Or.inr (Or.inr hs)
      · exact Or.inl rfl
      · exact Or.inl rfl
    · simp only [updateFunc.GNSS] at h ⊢
      split
      · rename_i h1 h2
        simp only [h1, h2] at h
        rcases showPosition_raise _ s e h with hs | hs
        · exact Or.inl hs
        · exact Or.inr (Or.inr hs)
      · exact Or.inl rfl
      · exact Or.inl rfl
    · simp only [updateFunc.GPS] at h ⊢
      split
      · split
        · exact Or.inl rfl
        · rename_i h1
          simp only [h1] at h
          rcases showPosition_raise _ s e h with hs | hs
          · exact Or.inl hs
          · exact Or.inr (Or.inr hs)
      · exact Or.inl rfl
    all_goals
      right
      left
      exact ⟨_, by decide, setText_raise _ data s e h⟩

/-- A dispatch that does not raise agrees with the dispatch of the
specification. -/
theorem specDispatch_of_ok (m : Message) (s : Display)
    (h : (dispatch m.appId m.data s).2 = none) :
    specDispatch m s = (dispatch m.appId m.data s).1 := by
  unfold specDispatch
  unfold dispatch at h ⊢
  cases hl : updateFunc.lookup m.appId with
  | some handler =>
    rw [hl] at h
    dsimp only at h ⊢
    split
    · rename_i heq
      rw [heq]
    · rename_i heq
      rw [heq] at h
      cases h
  | none =>
    rw [hl] at h
    dsimp only at h ⊢
    split
    · rfl
    · rfl
    · split <;> rfl
    · rfl
    · rfl

/-- Past messages whose dispatch does not raise, the loop goes on from the
fold of the specification over them. -/
theorem forEachDispatch_append (pre rest : List Message) (s : Display)
    (h : ∀ m ∈ pre, ∀ st, (dispatch m.appId m.data st).2 = none) :
    forEachDispatch (pre ++ rest) s =
      forEachDispatch rest (pre.foldl (fun st m => specDispatch m st) s) := by
  induction pre generalizing s with
  | nil => rfl
  | cons m ms ih =>
    have hs1 := h m (List.mem_cons_self m ms) s
    have hspec := specDispatch_of_ok m s hs1
    have hpair : dispatch m.appId m.data s = ((dispatch m.appId m.data s).1, none) := by
      rw [← hs1]
    simp only [List.cons_append, forEachDispatch, List.foldl_cons, hspec]
    rw [hpair]
    exact ih _ (fun m2 hm2 => h m2 (List.mem_cons_of_mem m hm2))

/-- C10, refuted: with the items `GPS` carrying `null`, then `TEMP` carrying
`"21.5"`, the `GPS` handler raises at `data.split`, the loop stops and the
display is the one before the tick; dispatching the messages one by one, with
the failure kept inside the handler, writes `"21.5"` to the temperature
label. -/
theorem tick_fold_counterexample :
    tick (Fetch.resolved (some [⟨"GPS", JSVal.null⟩, ⟨"TEMP", JSVal.str "21.5"⟩]))
        Display.initial = (Display.initial, some JSError.typeError) ∧
    (specTick (Fetch.resolved (some [⟨"GPS", JSVal.null⟩, ⟨"TEMP", JSVal.str "21.5"⟩]))
        Display.initial).text "#temperature" = JSVal.str "21.5" ∧
    (tick (Fetch.resolved (some [⟨"GPS", JSVal.null⟩, ⟨"TEMP", JSVal.str "21.5"⟩]))
        Display.initial).1 ≠
      specTick (Fetch.resolved (some [⟨"GPS", JSVal.null⟩, ⟨"TEMP", JSVal.str "21.5"⟩]))
        Display.initial := by
  have h1 : tick (Fetch.resolved (some [⟨"GPS", JSVal.null⟩, ⟨"TEMP", JSVal.str "21.5"⟩]))
      Display.initial = (Display.initial, some JSError.typeError) := rfl
  have h2 : (specTick
      (Fetch.resolved (some [⟨"GPS", JSVal.null⟩, ⟨"TEMP", JSVal.str "21.5"⟩]))
      Display.initial).text "#temperature" = JSVal.str "21.5" := rfl
  refine ⟨h1, h2, ?_⟩
  intro h
  have h3 := congrArg (fun d => d.text "#temperature") h
  rw [h1] at h3
  simp only [h2] at h3
  have h4 : ("" : String) = "21.5" := JSVal.str.inj h3
  exact absurd h4 (by decide)

/-- C10, amended. As long as no dispatch raises, one tick is the left fold of
the dispatch step over the messages in the order returned, and nothing is
raised; the tick stops at the first message whose dispatch raises, with the
display as the earlier messages left it (save that a scalar handler that
raises has emptied its own label, and a position handler stopped by the tile
layer has moved marker and centre) and with none of the later messages
processed; an
identifier that is neither a key of the table nor a property name inherited
from `Object.prototype` is skipped; when the fetch throws, or its result has a
missing or empty item list, the display is unchanged. -/
theorem tick_fold_until_raise (pre rest : List Message) (s : Display)
    (h : ∀ m ∈ pre, ∀ st, (dispatch m.appId m.data st).2 = none) :
    tick (Fetch.resolved (some pre)) s =
      (pre.foldl (fun st m => specDispatch m st) s, none) ∧
    (∀ m e, (dispatch m.appId m.data (pre.foldl (fun st m => specDispatch m st) s)).2 =
        some e →
      tick (Fetch.resolved (some (pre ++ m :: rest))) s =
        ((dispatch m.appId m.data (pre.foldl (fun st m => specDispatch m st) s)).1, some e) ∧
      ((dispatch m.appId m.data (pre.foldl (fun st m => specDispatch m st) s)).1 =
          pre.foldl (fun st m => specDispatch m st) s ∨
        (∃ sel, (m.appId, sel) ∈ scalarLabels ∧
          (dispatch m.appId m.data (pre.foldl (fun st m => specDispatch m st) s)).1 =
            writeText sel (JSVal.str "") (pre.foldl (fun st m => specDispatch m st) s)) ∨
        ∃ p, (dispatch m.appId m.data (pre.foldl (fun st m => specDispatch m st) s)).1 =
          { pre.foldl (fun st m => specDispatch m st) s with marker := p, center := p })) ∧
    (∀ m : Message, m.appId ∉ updateFunc.map Prod.fst →
      m.appId ∉ objectPrototype.map Prod.fst →
      ∀ st, dispatch m.appId m.data st = (st, none)) ∧
    (tick Fetch.rejected s).1 = s ∧
    tick (Fetch.resolved none) s = (s, none) ∧
    tick (Fetch.resolved (some [])) s = (s, none) := by
  refine ⟨?_, ?_, fun m h1 h2 st => dispatch_unknown m.appId h1 h2 m.data st, rfl, rfl, rfl⟩
  · have := forEachDispatch_append pre [] s h
    simpa [tick, forEachDispatch] using this
  · intro m e he
    refine ⟨?_, dispatch_raise_display _ _ _ e he⟩
    have := forEachDispatch_append pre (m :: rest) s h
    have hpair : dispatch m.appId m.data (pre.foldl (fun st m => specDispatch m st) s) =
        ((dispatch m.appId m.data (pre.foldl (fun st m => specDispatch m st) s)).1,
          some e) := by
      rw [← he]
    simp only [tick, Option.getD_some, this, forEachDispatch]
    rw [hpair]

/-- C10, amended, on the items `TEMP "21.5"`, `BUTTON "1"`, then `GPS` with
the bare tag `$GPGGA` and `TEMP "after"`: the first is written, the second
skipped, the third raises in `setLatLng` and the fourth is not processed. -/
theorem tick_fold_until_raise_witness :
    tick (Fetch.resolved (some
        ([⟨"TEMP", JSVal.str "21.5"⟩, ⟨"BUTTON", JSVal.str "1"⟩] ++
          ⟨"GPS", JSVal.str "$GPGGA"⟩ :: [⟨"TEMP", JSVal.str "after"⟩]))) Display.initial =
      (writeText "#temperature" (JSVal.str "21.5") Display.initial,
        some JSError.invalidLatLng) :=
  ((tick_fold_until_raise [⟨"TEMP", JSVal.str "21.5"⟩, ⟨"BUTTON", JSVal.str "1"⟩]
    [⟨"TEMP", JSVal.str "after"⟩] Display.initial
    (by
      intro m hm st
      simp only [List.mem_cons, List.mem_nil_iff, or_false] at hm
      rcases hm with rfl | rfl
      · rfl
      · rfl)).2.1 ⟨"GPS", JSVal.str "$GPGGA"⟩ JSError.invalidLatLng rfl).1

/-- With the items `__proto__` then `TEMP "21.5"`, the tick raises at the
first message and stops: the temperature label is not written, whereas the
fold of the specification skips `__proto__` and writes `"21.5"`. -/
theorem tick_stops_at_proto :
    (∀ s : Display,
      tick (Fetch.resolved
          (some [⟨"__proto__", JSVal.null⟩, ⟨"TEMP", JSVal.str "21.5"⟩])) s =
        (s, some JSError.typeError)) ∧
    (∀ s : Display,
      specTick (Fetch.resolved
          (some [⟨"__proto__", JSVal.null⟩, ⟨"TEMP", JSVal.str "21.5"⟩])) s =
        writeText "#temperature" (JSVal.str "21.5") s) :=
  ⟨fun _ => rfl, fun _ => rfl⟩

/-! ## Timers -/

/-- After `startDataSync`, when at most the timer of `requestInterval` was
running, exactly the new timer runs and `requestInterval` holds its handle. -/
theorem startDataSync_single (handle : Nat) (t : Session)
    (h : (t.active = [] ∧ t.requestInterval = none) ∨
      ∃ k, t.active = [k] ∧ t.requestInterval = some k) :
    (startDataSync handle t).active = [handle] ∧
      (startDataSync handle t).requestInterval = some handle := by
  rcases h with ⟨ha, hr⟩ | ⟨k, ha, hr⟩
  · simp [startDataSync, clearInterval, ha, hr]
  · simp [startDataSync, clearInterval, ha, hr]

/-- The calls of `startDataSync` in a row, the n-th with the handle that
`setInterval` returns in it. -/
theorem startDataSync_foldl_single (handles : List Nat) (t : Session)
    (h : (t.active = [] ∧ t.requestInterval = none) ∨
      ∃ k, t.active = [k] ∧ t.requestInterval = some k)
    (hne : handles ≠ []) :
    ∃ k, (handles.foldl (fun st hd => startDataSync hd st) t).active = [k] ∧
      (handles.foldl (fun st hd => startDataSync hd st) t).requestInterval = some k ∧
      handles.getLast? = some k := by
  induction handles generalizing t with
  | nil => exact absurd rfl hne
  | cons a as ih =>
    have h1 := startDataSync_single a t h
    cases as with
    | nil => exact ⟨a, h1.1, h1.2, rfl⟩
    | cons b bs =>
      obtain ⟨k, hk1, hk2, hk3⟩ := ih (startDataSync a t) (Or.inr ⟨a, h1.1, h1.2⟩)
        (List.cons_ne_nil b bs)
      exact ⟨k, hk1, hk2, by simpa [List.getLast?_cons_cons] using hk3⟩

/-- C9. After any non-empty sequence of `startDataSync` calls from the initial
state, whatever handles `setInterval` returns, exactly one interval timer is
active and `requestInterval` holds its handle, which is the one of the last
call; in particular after two calls. -/
theorem startDataSync_one_timer (handles : List Nat) (hne : handles ≠ []) :
    ∃ k, (handles.foldl (fun st hd => startDataSync hd st) Session.initial).active = [k] ∧
      (handles.foldl (fun st hd => startDataSync hd st) Session.initial).active.length = 1 ∧
      (handles.foldl (fun st hd => startDataSync hd st) Session.initial).requestInterval =
        some k ∧
      handles.getLast? = some k := by
  obtain ⟨k, h1, h2, h3⟩ :=
    startDataSync_foldl_single handles Session.initial (Or.inl ⟨rfl, rfl⟩) hne
  exact ⟨k, h1, by rw [h1]; rfl, h2, h3⟩

/-- C9 on two calls in a row, `setInterval` returning 1 then 2: timer 2 alone
is active. -/
theorem startDataSync_one_timer_witness :
    (startDataSync 2 (startDataSync 1 Session.initial)).active = [2] ∧
    (startDataSync 2 (startDataSync 1 Session.initial)).requestInterval = some 2 := by
  obtain ⟨k, h1, _, h2, h3⟩ := startDataSync_one_timer [1, 2] (by decide)
  have hk : k = 2 := by simpa using h3.symm
  subst hk
  exact ⟨h1, h2⟩

end App
